import Mathlib

/-!
# Middleware pipeline of `main.go`

A shallow embedding of the three functions of `src/main.go`:

* `logging` (lines 14-20), the decorator that delegates to the inner handler
  and afterwards hands one formatted message to the standard logger;
* `handle` (lines 24-32), the terminal handler with its fixed response;
* `main` (lines 34-36), which registers `logging(handle)`.

Go functions with side effects are embedded by explicit state passing: a
handler takes the process state before the call and returns its Go results
together with the process state after the call.  The process state keeps the
messages handed to the standard logger, oldest first, next to an arbitrary
component standing for everything else a handler may read or write.  A handler
is a function that returns; the program contains neither `panic` nor `recover`.
-/

namespace Middleware

/-! ## Data model -/

/-- Modelled from the spec: Go's `map[string]string` is a type of the language,
not declared under src/; a "mapping of header name to value (keys unique)" is
kept as the list of its entries, the nil map and the empty map both being the
empty list. -/
abbrev GoMap := List (String × String)

/-- Modelled from the spec: the `error` interface is a type of the language, not
declared under src/; a non-nil error is kept as its message, and the nil error
is `none` of `Option GoError`. -/
structure GoError where
  msg : String
  deriving DecidableEq, Repr

/-- Modelled from the spec: `context.Context` is declared in the imported
standard library, not under src/; no function of the program looks inside it,
so it is kept as a deadline and a list of request-scoped values. -/
structure Context where
  deadline : Option Nat
  values : List (String × String)
  deriving DecidableEq, Repr

/-- Modelled from the spec: `events.APIGatewayRequestIdentity` is declared in the
imported package `aws-lambda-go/events`, not under src/; the "caller identity
metadata including a source network address".  `SourceIP` is the field read at
main.go:17. -/
structure APIGatewayRequestIdentity where
  SourceIP : String
  UserAgent : String
  deriving DecidableEq, Repr

/-- Modelled from the spec: `events.APIGatewayProxyRequestContext` is declared in
the imported package `aws-lambda-go/events`, not under src/; it holds the
identity by value (`r.RequestContext.Identity` at main.go:17 is a chain of
field selections, no pointer is dereferenced). -/
structure APIGatewayProxyRequestContext where
  RequestID : String
  Identity : APIGatewayRequestIdentity
  deriving DecidableEq, Repr

/-- Modelled from the spec: `events.APIGatewayProxyRequest` is declared in the
imported package `aws-lambda-go/events`, not under src/; the inbound shape
"containing: HTTP method, path, headers, query parameters, body, and caller
identity metadata". -/
structure APIGatewayProxyRequest where
  HTTPMethod : String
  Path : String
  Headers : GoMap
  QueryStringParameters : GoMap
  RequestContext : APIGatewayProxyRequestContext
  Body : String
  deriving DecidableEq, Repr

/-- Modelled from the spec: `events.APIGatewayProxyResponse` is declared in the
imported package `aws-lambda-go/events`, not under src/; the outbound shape
"integer status code, header mapping, body string", with the field names used
at main.go:25-31. -/
structure APIGatewayProxyResponse where
  StatusCode : Int
  Headers : GoMap
  Body : String
  deriving DecidableEq, Repr

/-- The zero value of the identity: every string empty. -/
def zeroIdentity : APIGatewayRequestIdentity :=
  { SourceIP := "", UserAgent := "" }

/-- The zero value of the request context. -/
def zeroRequestContext : APIGatewayProxyRequestContext :=
  { RequestID := "", Identity := zeroIdentity }

/-- The zero value of the request: empty strings, nil maps, zero request
context. -/
def zeroRequest : APIGatewayProxyRequest :=
  { HTTPMethod := "", Path := "", Headers := [], QueryStringParameters := [],
    RequestContext := zeroRequestContext, Body := "" }

/-- The process state a handler runs in.  `log` holds the messages handed to the
standard logger of package `log`, oldest first; `state` stands for every other
piece of mutable state a handler may touch. -/
structure World (σ : Type) where
  log : List String
  state : σ

/-- The pair of results of a handler: the response and the error (`none` is
Go's nil error). -/
abbrev Result := APIGatewayProxyResponse × Option GoError

/-- The type `handlerFunc` of main.go:10,
`func(context.Context, events.APIGatewayProxyRequest) (events.APIGatewayProxyResponse, error)`,
with the process state passed explicitly. -/
abbrev handlerFunc (σ : Type) :=
  Context → APIGatewayProxyRequest → World σ → Result × World σ

/-! ## Library calls -/

/-- Modelled from the spec: `log.Printf` is declared in the imported standard
library, not under src/; with the format `"remote_addr: %s"` and a string
argument the formatted message is the text before the verb followed by the
argument. -/
def sprintfRemoteAddr (sourceIP : String) : String :=
  "remote_addr: " ++ sourceIP

/-- Modelled from the spec: `log.Printf` is declared in the imported standard
library, not under src/; it "emits one log line" to the "process-wide,
write-only, line-oriented text sink": the message is appended to the log and
nothing else changes. -/
def logPrintf {σ : Type} (msg : String) (w : World σ) : World σ :=
  { w with log := w.log ++ [msg] }

/-! ## The program -/

/-- The function `logging` of main.go:14-20:
```go
response, err := f(ctx, r)
log.Printf("remote_addr: %s", r.RequestContext.Identity.SourceIP)
return response, err
``` -/
def logging {σ : Type} (f : handlerFunc σ) : handlerFunc σ :=
  fun ctx r w =>
    let (result, w1) := f ctx r w
    let w2 := logPrintf (sprintfRemoteAddr r.RequestContext.Identity.SourceIP) w1
    (result, w2)

/-- The function `handle` of main.go:24-32: a composite literal with `Body`,
`StatusCode` and a one-entry `Headers` map, returned with the nil error. -/
def handle {σ : Type} : handlerFunc σ :=
  fun _ctx _request w =>
    (({ Body := "i'm an app",
        StatusCode := 200,
        Headers := [("Content-Type", "application/json")] }, none), w)

/-- The handler that `main` (main.go:34-36) passes to `lambda.Start`. -/
def main {σ : Type} : handlerFunc σ :=
  logging handle

/-! ## Observation of the inner handler -/

/-- One recorded invocation of a handler: the arguments it was entered with and
the log as it stood at that moment. -/
structure Call where
  ctx : Context
  r : APIGatewayProxyRequest
  logAtEntry : List String
  deriving DecidableEq, Repr

/-- A handler `f` put under observation: the state is extended by the list of
recorded invocations; every invocation first appends its own record to that
list and then runs `f` on the rest of the state. -/
def observed {σ : Type} (f : handlerFunc σ) : handlerFunc (List Call × σ) :=
  fun ctx r w =>
    let (result, w1) := f ctx r { log := w.log, state := w.state.2 }
    (result, { log := w1.log, state := (w.state.1 ++ [⟨ctx, r, w.log⟩], w1.state) })

/-- The pipeline made of `n` applications of `logging` around `f`; the wrapper
added last is the outermost one. -/
def wrapN {σ : Type} : Nat → handlerFunc σ → handlerFunc σ
  | 0, f => f
  | n + 1, f => logging (wrapN n f)

/-- A string `s` occurs in `t` as a literal substring. -/
def Contains (t s : String) : Prop :=
  ∃ before after : String, t = before ++ s ++ after

/-! ## Sample inputs -/

/-- A context without deadline and without values. -/
def sampleContext : Context :=
  { deadline := none, values := [] }

/-- A `GET /` request whose source address is `203.0.113.5`. -/
def sampleRequest : APIGatewayProxyRequest :=
  { HTTPMethod := "GET", Path := "/", Headers := [("Host", "example.org")],
    QueryStringParameters := [],
    RequestContext := { RequestID := "1", Identity := { SourceIP := "203.0.113.5", UserAgent := "curl" } },
    Body := "" }

/-- An empty process state. -/
def emptyWorld : World Unit :=
  { log := [], state := () }

/-- An inner handler that fails: it logs one line of its own and returns a
non-nil error next to a 500 response. -/
def failingHandler : handlerFunc Unit :=
  fun _ctx _r w =>
    (({ StatusCode := 500, Headers := [], Body := "" }, some { msg := "boom" }),
      logPrintf "inner failed" w)

/-! ## Helper lemmas -/

/-- The results of `logging f` are the results of `f`. -/
theorem logging_fst {σ : Type} (f : handlerFunc σ) (ctx : Context)
    (r : APIGatewayProxyRequest) (w : World σ) :
    (logging f ctx r w).1 = (f ctx r w).1 := rfl

/-- The state after `logging f` is the state after `f` with one message
appended to the log. -/
theorem logging_snd {σ : Type} (f : handlerFunc σ) (ctx : Context)
    (r : APIGatewayProxyRequest) (w : World σ) :
    (logging f ctx r w).2 =
      { log := (f ctx r w).2.log ++ [sprintfRemoteAddr r.RequestContext.Identity.SourceIP],
        state := (f ctx r w).2.state } := rfl

/-- The results of the `n`-fold pipeline are the results of `f`. -/
theorem wrapN_fst {σ : Type} (n : Nat) (f : handlerFunc σ) (ctx : Context)
    (r : APIGatewayProxyRequest) (w : World σ) :
    (wrapN n f ctx r w).1 = (f ctx r w).1 := by
  induction n with
  | zero => rfl
  | succ n ih => exact (logging_fst (wrapN n f) ctx r w).trans ih

/-- Layers added on top of a `k`-fold pipeline append their messages after
everything the `k`-fold pipeline has logged, and touch nothing else. -/
theorem wrapN_add_snd {σ : Type} (k m : Nat) (f : handlerFunc σ) (ctx : Context)
    (r : APIGatewayProxyRequest) (w : World σ) :
    (wrapN (k + m) f ctx r w).2 =
      { log := (wrapN k f ctx r w).2.log ++
          List.replicate m (sprintfRemoteAddr r.RequestContext.Identity.SourceIP),
        state := (wrapN k f ctx r w).2.state } := by
  induction m with
  | zero => simp
  | succ m ih =>
    have h : wrapN (k + (m + 1)) f = logging (wrapN (k + m) f) := rfl
    rw [h, logging_snd, ih]
    simp [List.replicate_succ', List.append_assoc]

/-- The observed handler records one invocation, with the arguments and the log
it was entered with. -/
theorem observed_calls {σ : Type} (f : handlerFunc σ) (ctx : Context)
    (r : APIGatewayProxyRequest) (w : World (List Call × σ)) :
    (observed f ctx r w).2.state.1 = w.state.1 ++ [⟨ctx, r, w.log⟩] := rfl

/-- Wrapping in `n` layers does not change what the observed inner handler
records. -/
theorem wrapN_observed_calls {σ : Type} (n : Nat) (f : handlerFunc σ) (ctx : Context)
    (r : APIGatewayProxyRequest) (w : World (List Call × σ)) :
    (wrapN n (observed f) ctx r w).2.state.1 = w.state.1 ++ [⟨ctx, r, w.log⟩] := by
  induction n with
  | zero => rfl
  | succ n ih =>
    have h : wrapN (n + 1) (observed f) = logging (wrapN n (observed f)) := rfl
    rw [h, logging_snd]
    exact ih

/-- A string occurs in itself preceded by any text. -/
theorem contains_append_left (p s : String) : Contains (p ++ s) s :=
  ⟨p, "", by simp⟩

/-- The state after the `n`-fold pipeline is the state after `f` with `n`
messages appended to the log. -/
theorem wrapN_snd {σ : Type} (n : Nat) (f : handlerFunc σ) (ctx : Context)
    (r : APIGatewayProxyRequest) (w : World σ) :
    (wrapN n f ctx r w).2 =
      { log := (f ctx r w).2.log ++
          List.replicate n (sprintfRemoteAddr r.RequestContext.Identity.SourceIP),
        state := (f ctx r w).2.state } := by
  have h := wrapN_add_snd 0 n f ctx r w
  rw [Nat.zero_add] at h
  exact h

/-! ## The claims -/

/-- C1: for every context, request and process state, `handle` returns a response
with status code 200, body `i'm an app` and a header map whose only entry is
`Content-Type -> application/json`, together with the nil error, and it leaves
the process state untouched. -/
theorem handle_fixed_response {σ : Type} (ctx : Context) (r : APIGatewayProxyRequest)
    (w : World σ) :
    (handle ctx r w).1.1.StatusCode = 200 ∧
    (handle ctx r w).1.1.Body = "i'm an app" ∧
    (handle ctx r w).1.1.Headers = [("Content-Type", "application/json")] ∧
    (handle ctx r w).1.1.Headers.length = 1 ∧
    (handle ctx r w).1.2 = none ∧
    (handle ctx r w).2 = w :=
  ⟨rfl, rfl, rfl, rfl, rfl, rfl⟩

/-- C2: observational transparency.  For every inner handler `f`, context,
request and process state, `logging f` returns the same (response, error) pair
as `f`; in particular `logging handle` returns what `handle` returns.  The only
difference is in the process state: the log has one more message, the rest is
as `f` left it. -/
theorem logging_transparent {σ : Type} (f : handlerFunc σ) (ctx : Context)
    (r : APIGatewayProxyRequest) (w : World σ) :
    (logging f ctx r w).1 = (f ctx r w).1 ∧
    (logging handle ctx r w).1 = (handle ctx r w).1 ∧
    (logging f ctx r w).2.state = (f ctx r w).2.state ∧
    (∃ msg, (logging f ctx r w).2.log = (f ctx r w).2.log ++ [msg]) :=
  ⟨rfl, rfl, rfl, _, rfl⟩

/-- C3: delegate, then log.  One invocation of `logging f` runs `f` once from the
state the wrapper was entered in and then appends exactly one message to the
log: the final state is the state after a single call of `f` followed by one log
entry.  Put under observation, the inner handler records exactly one
invocation, entered while the log was still as the wrapper found it. -/
theorem logging_delegates_then_logs {σ : Type} (f : handlerFunc σ) (ctx : Context)
    (r : APIGatewayProxyRequest) (w : World σ) (calls : List Call) :
    (logging f ctx r w).2 =
      logPrintf (sprintfRemoteAddr r.RequestContext.Identity.SourceIP) (f ctx r w).2 ∧
    (logging f ctx r w).2.log.length = (f ctx r w).2.log.length + 1 ∧
    (logging (observed f) ctx r { log := w.log, state := (calls, w.state) }).2.state.1 =
      calls ++ [⟨ctx, r, w.log⟩] ∧
    (logging (observed f) ctx r { log := w.log, state := (calls, w.state) }).2.state.1.length =
      calls.length + 1 ∧
    (logging (observed f) ctx r { log := w.log, state := (calls, w.state) }).2.log =
      (f ctx r w).2.log ++ [sprintfRemoteAddr r.RequestContext.Identity.SourceIP] := by
  refine ⟨rfl, ?_, rfl, ?_, rfl⟩
  · rw [logging_snd]; simp
  · rw [logging_snd]
    show (observed f ctx r _).2.state.1.length = _
    rw [observed_calls]; simp

/-- C4: the message `logging` hands to the logger is the string `remote_addr: `
followed by the request's `RequestContext.Identity.SourceIP`, so the source
address occurs in it as a literal substring; when the source address is
`203.0.113.5` the message is `remote_addr: 203.0.113.5`, which contains
`203.0.113.5`. -/
theorem logging_message {σ : Type} (f : handlerFunc σ) (ctx : Context)
    (r : APIGatewayProxyRequest) (w : World σ)
    (rc : APIGatewayProxyRequestContext) (ident : APIGatewayRequestIdentity) :
    (logging f ctx r w).2.log =
      (f ctx r w).2.log ++ ["remote_addr: " ++ r.RequestContext.Identity.SourceIP] ∧
    Contains ("remote_addr: " ++ r.RequestContext.Identity.SourceIP)
      r.RequestContext.Identity.SourceIP ∧
    (logging f ctx
        { r with RequestContext :=
            { rc with Identity := { ident with SourceIP := "203.0.113.5" } } } w).2.log =
      (f ctx
        { r with RequestContext :=
            { rc with Identity := { ident with SourceIP := "203.0.113.5" } } } w).2.log ++
        ["remote_addr: 203.0.113.5"] ∧
    Contains "remote_addr: 203.0.113.5" "203.0.113.5" :=
  ⟨rfl, contains_append_left _ _, by rw [logging_snd]; rfl,
    contains_append_left "remote_addr: " "203.0.113.5"⟩

/-- C5: the wrapper logs whether the inner call succeeded or failed.  Whatever
pair `f` returns, with a nil or a non-nil error, `logging f` returns that same
response and that same error and appends exactly one message, the one carrying
the source address, to the log `f` left. -/
theorem logging_logs_on_any_outcome {σ : Type} (f : handlerFunc σ) (ctx : Context)
    (r : APIGatewayProxyRequest) (w : World σ) (resp : APIGatewayProxyResponse)
    (err : Option GoError) (h : (f ctx r w).1 = (resp, err)) :
    (logging f ctx r w).1 = (resp, err) ∧
    (logging f ctx r w).2.log =
      (f ctx r w).2.log ++ [sprintfRemoteAddr r.RequestContext.Identity.SourceIP] ∧
    (logging f ctx r w).2.log.length = (f ctx r w).2.log.length + 1 := by
  refine ⟨h ▸ rfl, rfl, ?_⟩
  rw [logging_snd]; simp

/-- Witness for C5: an inner handler that returns a non-nil error. -/
theorem logging_logs_on_any_outcome_witness :
    (failingHandler sampleContext sampleRequest emptyWorld).1 =
      ({ StatusCode := 500, Headers := [], Body := "" }, some { msg := "boom" }) ∧
    ((logging failingHandler sampleContext sampleRequest emptyWorld).1 =
      ({ StatusCode := 500, Headers := [], Body := "" }, some { msg := "boom" }) ∧
    (logging failingHandler sampleContext sampleRequest emptyWorld).2.log =
      (failingHandler sampleContext sampleRequest emptyWorld).2.log ++
        [sprintfRemoteAddr sampleRequest.RequestContext.Identity.SourceIP] ∧
    (logging failingHandler sampleContext sampleRequest emptyWorld).2.log.length =
      (failingHandler sampleContext sampleRequest emptyWorld).2.log.length + 1) :=
  ⟨rfl, logging_logs_on_any_outcome failingHandler sampleContext sampleRequest emptyWorld
    _ _ rfl⟩

/-- C6: for a request whose identity carries no source address (`SourceIP` is
the empty string, as in the zero-value request context), `logging handle` does
not fail: it returns status 200 with the body `i'm an app` and the nil error,
and the one message it logs is exactly `remote_addr: `. -/
theorem pipeline_empty_identity {σ : Type} (ctx : Context) (r : APIGatewayProxyRequest)
    (w : World σ) (h : r.RequestContext.Identity.SourceIP = "") :
    (logging handle ctx r w).1.1.StatusCode = 200 ∧
    (logging handle ctx r w).1.1.Body = "i'm an app" ∧
    (logging handle ctx r w).1.2 = none ∧
    (logging handle ctx r w).2 = { log := w.log ++ ["remote_addr: "], state := w.state } := by
  refine ⟨rfl, rfl, rfl, ?_⟩
  rw [logging_snd, h]
  rfl

/-- Witness for C6: the zero-value request. -/
theorem pipeline_empty_identity_witness :
    zeroRequest.RequestContext.Identity.SourceIP = "" ∧
    ((logging handle sampleContext zeroRequest emptyWorld).1.1.StatusCode = 200 ∧
    (logging handle sampleContext zeroRequest emptyWorld).1.1.Body = "i'm an app" ∧
    (logging handle sampleContext zeroRequest emptyWorld).1.2 = none ∧
    (logging handle sampleContext zeroRequest emptyWorld).2 =
      { log := emptyWorld.log ++ ["remote_addr: "], state := emptyWorld.state }) :=
  ⟨rfl, pipeline_empty_identity sampleContext zeroRequest emptyWorld rfl⟩

/-- C7: the handler registered by `main`, `logging handle`, never returns an
error: for every context, request and process state its error is nil and its
response is the fixed one, status 200, body `i'm an app`, the single header
`Content-Type -> application/json`. -/
theorem main_never_errors {σ : Type} (ctx : Context) (r : APIGatewayProxyRequest)
    (w : World σ) :
    (main ctx r w).1.2 = none ∧
    (main ctx r w).1.1 =
      { StatusCode := 200, Headers := [("Content-Type", "application/json")],
        Body := "i'm an app" } :=
  ⟨rfl, rfl⟩

/-- C8: the wrapper passes its arguments on unmodified.  Under observation the
inner handler of `logging` records one invocation, and the context and the
request of that record are the context and the request the wrapper received,
so every field of the request is the one received. -/
theorem logging_passes_arguments {σ : Type} (f : handlerFunc σ) (ctx : Context)
    (r : APIGatewayProxyRequest) (w : World (List Call × σ)) :
    ∃ c : Call,
      (logging (observed f) ctx r w).2.state.1 = w.state.1 ++ [c] ∧
      c.ctx = ctx ∧ c.r = r ∧
      c.r.RequestContext.Identity.SourceIP = r.RequestContext.Identity.SourceIP ∧
      (logging (observed f) ctx r w).1 = (f ctx r { log := w.log, state := w.state.2 }).1 :=
  ⟨⟨ctx, r, w.log⟩, rfl, rfl, rfl, rfl, rfl⟩

/-- C9: nested-call semantics.  For the pipeline of `k + m` layers of `logging`
around `f` (any number of layers, split anywhere into `k` inner and `m` outer
ones): it returns the (response, error) pair of `f`; its final state is the
state after `f` followed by exactly `k + m` log entries; the entries of the `k`
inner layers precede those of the `m` outer layers, the outermost layer logging
last; and the observed inner handler records exactly one invocation, entered
before any layer has logged. -/
theorem wrapN_nested {σ : Type} (k m : Nat) (f : handlerFunc σ) (ctx : Context)
    (r : APIGatewayProxyRequest) (w : World σ) (calls : List Call) :
    (wrapN (k + m) f ctx r w).1 = (f ctx r w).1 ∧
    (wrapN (k + m) f ctx r w).2 =
      { log := (f ctx r w).2.log ++
          List.replicate (k + m) (sprintfRemoteAddr r.RequestContext.Identity.SourceIP),
        state := (f ctx r w).2.state } ∧
    (wrapN (k + m) f ctx r w).2.log =
      (wrapN k f ctx r w).2.log ++
        List.replicate m (sprintfRemoteAddr r.RequestContext.Identity.SourceIP) ∧
    (wrapN (k + m + 1) f ctx r w).2.log =
      (wrapN (k + m) f ctx r w).2.log ++
        [sprintfRemoteAddr r.RequestContext.Identity.SourceIP] ∧
    (wrapN (k + m) (observed f) ctx r { log := w.log, state := (calls, w.state) }).2.state.1 =
      calls ++ [⟨ctx, r, w.log⟩] := by
  refine ⟨wrapN_fst _ f ctx r w, wrapN_snd _ f ctx r w, ?_, rfl,
    wrapN_observed_calls _ f ctx r _⟩
  rw [wrapN_add_snd]

end Middleware
